import Mathlib

/-!
Verification of the OVERWATCH OS study-tracking dashboard (app.py).

This file gives a shallow embedding of the app's logic engine:
the record normalizer `get_data`, the KPI engine `calculate_kpi`,
the protocol selector `get_day_protocol`, the timetable filter of the
schedule tab, and the subject listing `get_subjects` together with the
"Add Subject" button handler.  Streamlit/gspread plumbing is out of
scope; the worksheet contents are passed in as explicit values and the
current IST date/weekday as explicit parameters.
-/

/-- Calendar date (year, month, day), the value of a pandas timestamp's
`.date()` part.  `pd.NaT` is represented by `none` at use sites. -/
structure PDate where
  y : Nat
  m : Nat
  d : Nat
deriving DecidableEq

/-- Number of days in a month, with the Gregorian leap rule; used by the
date parser to model pandas' rejection of out-of-range days. -/
def daysInMonth (y m : Nat) : Nat :=
  if m = 2 then
    if (y % 4 = 0 && y % 100 ≠ 0) || y % 400 = 0 then 29 else 28
  else if m = 4 || m = 6 || m = 9 || m = 11 then 30
  else 31

/-- Splitting a character list at every occurrence of a separator, the
behaviour of Python `str.split(sep)` for a one-character separator. -/
def splitOnChar (sep : Char) : List Char → List (List Char)
  | [] => [[]]
  | c :: rest =>
    let r := splitOnChar sep rest
    if c = sep then [] :: r
    else
      match r with
      | [] => [[c]]
      | g :: gs => (c :: g) :: gs

/-- Parsing a non-empty all-digit character list as a natural number. -/
def digitsToNat? (cs : List Char) : Option Nat :=
  if cs ≠ [] ∧ cs.all Char.isDigit then
    some (cs.foldl (fun n c => 10 * n + (c.toNat - 48)) 0)
  else none

/-- Model of `pd.to_datetime(-, errors='coerce')` on one cell, for the
ISO `YYYY-MM-DD` layout that `write_log` stores (`strftime("%Y-%m-%d")`).
Any string not of that shape, or with an out-of-range month/day, coerces
to `none` (pandas `NaT`) instead of raising. -/
def pdToDatetime (s : String) : Option PDate :=
  match splitOnChar '-' s.toList with
  | [ys, ms, ds] =>
    match digitsToNat? ys, digitsToNat? ms, digitsToNat? ds with
    | some y, some m, some d =>
        if 1 ≤ m ∧ m ≤ 12 ∧ 1 ≤ d ∧ d ≤ daysInMonth y m then some ⟨y, m, d⟩
        else none
    | _, _, _ => none
  | _ => none

/-- One spreadsheet cell as returned by `get_all_records`: either a
number or a piece of text (a blank cell is the empty string). -/
inductive Cell where
  | num (q : Rat)
  | str (s : String)
deriving DecidableEq

/-- Decimal-number parser backing the `Cell.str` case of `pd.to_numeric`:
an optional minus sign, an integer part and an optional fractional part.
Anything else (in particular the empty string) fails to `none`. -/
def parseDecimal (s : String) : Option Rat :=
  let core := fun (body : List Char) =>
    match splitOnChar '.' body with
    | [i] => (digitsToNat? i).map (fun n => (n : Rat))
    | [i, f] =>
      if i = [] ∧ f = [] then none
      else
        match (if i = [] then some 0 else digitsToNat? i),
              (if f = [] then some 0 else digitsToNat? f) with
        | some n, some fr => some ((n : Rat) + (fr : Rat) / ((10 : Rat) ^ f.length))
        | _, _ => none
    | _ => none
  match s.toList with
  | '-' :: body => (core body).map (fun q => -q)
  | cs => core cs

/-- Model of `pd.to_numeric(-, errors='coerce')` on one cell: numbers
pass through, numeric-looking text is parsed, anything else coerces to
`none` (pandas `NaN`) instead of raising. -/
def pdToNumeric (c : Cell) : Option Rat :=
  match c with
  | .num q => some q
  | .str s => parseDecimal s

/-- One raw row of the Logs worksheet, as `get_all_records` hands it to
`get_data`: the Date cell as text, the four numeric columns as cells of
either shape, and the remaining columns as text. -/
structure RawRow where
  date : String
  time : String
  type : String
  sector : String
  subject : String
  activity : String
  duration : Cell
  output : Cell
  rot : Cell
  focus : Cell
  notes : String
deriving DecidableEq

/-- One normalized log entry, the row shape `calculate_kpi` consumes:
`Date` parsed (or `none` for NaT), the four numeric columns coerced with
the failure default 0, everything else untouched. -/
structure Entry where
  date : Option PDate
  kind : String
  subject : String
  activity : String
  duration : Rat
  output : Rat
  rot : Rat
  focus : Rat
  notes : String
deriving DecidableEq

/-- Normalization of a single row, the per-row content of `get_data`
(app.py lines 96-98): `pd.to_datetime(..., errors='coerce')` on Date and
`pd.to_numeric(..., errors='coerce').fillna(0)` on Duration, Output, Rot
and Focus.  The Type column is not touched. -/
def normalizeRow (r : RawRow) : Entry :=
  { date := pdToDatetime r.date
    kind := r.type
    subject := r.subject
    activity := r.activity
    duration := (pdToNumeric r.duration).getD 0
    output := (pdToNumeric r.output).getD 0
    rot := (pdToNumeric r.rot).getD 0
    focus := (pdToNumeric r.focus).getD 0
    notes := r.notes }

/-- The whole Logs frame handed to `get_data`: its rows plus which of
the columns touched by lines 96-98 (Date, Duration, Output, Rot, Focus)
the backing sheet's header row actually provides. -/
structure LogsSheet where
  hasDate : Bool
  hasDuration : Bool
  hasOutput : Bool
  hasRot : Bool
  hasFocus : Bool
  rows : List RawRow
deriving DecidableEq

/-- Record normalizer `get_data` (app.py lines 88-100), restricted to
the Logs frame.  An empty frame skips normalization entirely
(`if not df_logs.empty`, line 95).  On a non-empty frame, lines 96-98
index the Date column and then Duration, Output, Rot and Focus in that
order, and each such indexing raises a `KeyError` (modelled as
`Except.error`) when the column is absent from the frame.  When all five
columns are present, every row is normalized by `normalizeRow`, none is
dropped and nothing can raise. -/
def get_data (sheet : LogsSheet) : Except String (List Entry) :=
  if sheet.rows = [] then Except.ok []
  else if sheet.hasDate = false then Except.error "KeyError: Date"
  else if sheet.hasDuration = false then Except.error "KeyError: Duration"
  else if sheet.hasOutput = false then Except.error "KeyError: Output"
  else if sheet.hasRot = false then Except.error "KeyError: Rot"
  else if sheet.hasFocus = false then Except.error "KeyError: Focus"
  else Except.ok (sheet.rows.map normalizeRow)

/-- Python `int(..)` applied to a float: truncation toward zero. -/
def pyInt (q : Rat) : Int :=
  if 0 ≤ q then ⌊q⌋ else ⌈q⌉

/-- Python `round(..)` to zero decimal places on an exact value:
round-half-to-even banker's rounding. -/
def rEven (q : Rat) : Int :=
  let f : Int := ⌊q⌋
  let r : Rat := q - (f : Rat)
  if r < 1/2 then f
  else if 1/2 < r then f + 1
  else if f % 2 = 0 then f else f + 1

/-- Python `round(x, 2)`: banker's rounding at two decimal places. -/
def pyRound2 (x : Rat) : Rat :=
  ((rEven (100 * x) : Int) : Rat) / 100

/-- The row filter of app.py line 114:
`df[(df['Date'].dt.date == today.date()) & (df['Type'] == 'Metric')]`.
An entry with `date = none` (NaT) never compares equal to `today`. -/
def filterToday (df : List Entry) (today : PDate) : List Entry :=
  df.filter (fun e => decide (e.date = some today) && decide (e.kind = "Metric"))

/-- The `hours` value of app.py line 120:
`df_today['Duration'].sum() / 60`, the active hours of the day. -/
def activeHours (df : List Entry) (today : PDate) : Rat :=
  ((filterToday df today).map (fun e => e.duration)).sum / 60

/-- The exception text of app.py line 111: `get_current_time()` returns
a `datetime.datetime` (the value of `datetime.now(IST)`), and that class
has no `normalize` method — `normalize` belongs to `pandas.Timestamp`,
which is what line 273 uses correctly. -/
def normalizeAttrErr : String :=
  "AttributeError: 'datetime.datetime' object has no attribute 'normalize'"

/-- KPI engine `calculate_kpi` (app.py lines 109-122) as shipped: the
empty-frame guard of line 110 is the only returning path.  For every
non-empty frame, line 111 `today = get_current_time().normalize()`
raises `AttributeError` before any KPI arithmetic runs; the dashboard's
bare `except` at line 166 then zeroes the displayed KPIs. -/
def calculate_kpi (df : List Entry) : Except String (Int × Int × Rat) :=
  if df = [] then Except.ok (0, 0, 0)
  else Except.error normalizeAttrErr

/-- The KPI arithmetic `calculate_kpi` (lines 109-122) would perform if
line 111 bound `today` to the current IST date — the intent witnessed by
the dead lines 112-122 and by the correct `pandas` normalize idiom of
line 273.  In the shipped function this arithmetic is unreachable for
non-empty frames because line 111 raises first; it is embedded here with
`today` as an explicit parameter to state what those lines compute. -/
def calculate_kpi_intended (df : List Entry) (today : PDate) : Int × Int × Rat :=
  if df = [] then (0, 0, 0)
  else
    let df_today := filterToday df today
    if df_today = [] then (0, 0, 0)
    else
      let rot := pyInt ((df_today.map (fun e => e.rot)).sum)
      let efs := pyInt ((df_today.map (fun e => e.duration * (e.focus / 100) - e.rot * 1.5)).sum)
      let hours := activeHours df today
      let velocity := if 0 < hours then pyRound2 (((df_today.map (fun e => e.output)).sum) / hours) else 0
      (rot, efs, velocity)

/-- Protocol selector `get_day_protocol` (app.py lines 63-67), with the
weekday index of the IST clock (`datetime.weekday()`: Monday = 0) made an
explicit parameter. -/
def get_day_protocol (day_num : Nat) : String :=
  if day_num = 0 ∨ day_num = 2 ∨ day_num = 4 then "MWS Protocol"
  else if day_num = 1 ∨ day_num = 3 ∨ day_num = 5 then "TTS Protocol"
  else "Sunday Special"

/-- One row of the Timetable worksheet. -/
structure TRow where
  dayType : String
  timeSlot : String
  task : String
deriving DecidableEq

/-- The whole Timetable frame: its rows, plus whether the `Day_Type`
column is present at all in the backing sheet (`df_timetable` only has
that column when the sheet's header row provides it). -/
structure Timetable where
  hasDayType : Bool
  rows : List TRow
deriving DecidableEq

/-- Python `protocol.split()[0]`: the first whitespace-delimited token of
the protocol label. -/
def firstToken (s : String) : String :=
  ⟨((splitOnChar ' ' s.toList).filter (fun t => t ≠ [])).headD []⟩

/-- Model of pandas `str.contains(pat, case=False)` with a literal
pattern (the three protocol tokens "MWS", "TTS" and "Sunday" contain no
regex metacharacters): case-insensitive substring test. -/
def strContainsCI (hay pat : String) : Bool :=
  let h := hay.toList.map Char.toLower
  let p := pat.toList.map Char.toLower
  (List.range (h.length + 1)).any (fun i => p.isPrefixOf (h.drop i))

/-- The schedule-tab row filter of app.py lines 237-238:
`df_timetable['Day_Type'].astype(str).str.contains(protocol.split()[0], case=False, na=False)`
applied as a mask.  Defined on the row list; it is only reached when the
`Day_Type` column exists. -/
def matchTodaySlots (rows : List TRow) (protocol : String) : List TRow :=
  rows.filter (fun s => strContainsCI s.dayType (firstToken protocol))

/-- The displayed schedule of app.py lines 235-249: an empty frame shows
nothing ("Timetable Empty"), a frame without the `Day_Type` column makes
line 237 raise a `KeyError` (modelled as `Except.error`), a non-empty
match is shown as is, and an empty match falls back to showing the full
unfiltered timetable (line 247). -/
def scheduleView (tt : Timetable) (protocol : String) : Except String (List TRow) :=
  if tt.rows = [] then Except.ok []
  else if tt.hasDayType = false then Except.error "KeyError: Day_Type"
  else
    let today_view := matchTodaySlots tt.rows protocol
    if today_view = [] then Except.ok tt.rows else Except.ok today_view

/-- One row of the Config worksheet (columns Category, Item). -/
structure ConfigRow where
  category : String
  item : String
deriving DecidableEq

/-- The whole Config frame: its rows plus which of the two columns the
backing sheet actually provides in its header row. -/
structure ConfigSheet where
  hasCategory : Bool
  hasItem : Bool
  rows : List ConfigRow
deriving DecidableEq

/-- Case-sensitive code-point lexicographic comparison of char lists,
the order Python's `sorted` uses on strings. -/
def lexLe : List Char → List Char → Bool
  | [], _ => true
  | _ :: _, [] => false
  | a :: as, b :: bs => if a < b then true else if b < a then false else lexLe as bs

/-- String comparison backing Python's `sorted` on a list of strings. -/
def strLe (a b : String) : Bool :=
  lexLe a.toList b.toList

/-- Python `sorted(xs)` on strings: a sort by `strLe`. -/
def pySorted (xs : List String) : List String :=
  List.insertionSort (fun a b => strLe a b = true) xs

/-- Python `sorted(list(set(xs)))` on strings: duplicates removed, then
sorted. -/
def pySortedSet (xs : List String) : List String :=
  pySorted xs.dedup

/-- The hard-coded default subject list of `get_subjects` (app.py line 74). -/
def defaultSubjects : List String :=
  ["Math", "Physics", "Chemistry", "Biology", "English", "GAT", "Python", "Chess"]

/-- Subject listing `get_subjects` (app.py lines 69-83).  The guard
`if not df.empty and 'Category' in df.columns` selects the custom branch;
that branch then accesses the `Item` column unconditionally, which raises
a `KeyError` when the sheet has no such column (modelled as
`Except.error`). -/
def get_subjects (cfg : ConfigSheet) : Except String (List String) :=
  if cfg.rows ≠ [] ∧ cfg.hasCategory = true then
    if cfg.hasItem = false then Except.error "KeyError: Item"
    else
      Except.ok (pySortedSet (defaultSubjects ++
        ((cfg.rows.filter (fun r => r.category = "Subject")).map (fun r => r.item))))
  else Except.ok (pySorted defaultSubjects)

/-- The "Add Subject" button handler (app.py lines 189-195): the new name
is appended (`some`) only when the input is non-empty (Python truthiness)
and not already in the current subject list; otherwise nothing is
appended (`none`). -/
def addSubjectAction (new_sub_input : String) (subject_list : List String) : Option String :=
  if new_sub_input ≠ "" ∧ new_sub_input ∉ subject_list then some new_sub_input
  else none

/-- Agreement up to the numeric fields of an Anomaly entry: the two
entries are equal, or both are Anomaly entries sharing date and textual
fields while duration, output, rot and focus may differ freely. -/
def AnomAgree (e₁ e₂ : Entry) : Prop :=
  e₁ = e₂ ∨
    (e₁.kind = "Anomaly" ∧ e₂.kind = "Anomaly" ∧ e₁.date = e₂.date ∧
     e₁.subject = e₂.subject ∧ e₁.activity = e₂.activity ∧ e₁.notes = e₂.notes)

theorem lexLe_total : ∀ as bs : List Char, lexLe as bs = true ∨ lexLe bs as = true := by
  intro as
  induction as with
  | nil => intro bs; left; rfl
  | cons a as ih =>
    intro bs
    cases bs with
    | nil => right; rfl
    | cons b bs =>
      rcases lt_trichotomy a b with h | h | h
      · left; simp [lexLe, h]
      · subst h
        rcases ih bs with h2 | h2
        · left; simp [lexLe, h2]
        · right; simp [lexLe, h2]
      · right; simp [lexLe, h]

theorem lexLe_trans : ∀ as bs cs : List Char,
    lexLe as bs = true → lexLe bs cs = true → lexLe as cs = true := by
  intro as
  induction as with
  | nil => intro bs cs _ _; rfl
  | cons a as ih =>
    intro bs cs hab hbc
    cases bs with
    | nil => simp [lexLe] at hab
    | cons b bs =>
      cases cs with
      | nil => simp [lexLe] at hbc
      | cons c cs =>
        simp only [lexLe] at hab hbc ⊢
        rcases lt_trichotomy b c with h2 | h2 | h2
        · rcases lt_trichotomy a b with h1 | h1 | h1
          · simp [lt_trans h1 h2]
          · subst h1; simp [h2]
          · rw [if_neg (lt_asymm h1), if_pos h1] at hab; exact absurd hab (by simp)
        · subst h2
          rw [if_neg (lt_irrefl b), if_neg (lt_irrefl b)] at hbc
          rcases lt_trichotomy a b with h1 | h1 | h1
          · simp [h1]
          · subst h1
            rw [if_neg (lt_irrefl a), if_neg (lt_irrefl a)] at hab ⊢
            exact ih bs cs hab hbc
          · rw [if_neg (lt_asymm h1), if_pos h1] at hab; exact absurd hab (by simp)
        · rw [if_neg (lt_asymm h2), if_pos h2] at hbc; exact absurd hbc (by simp)

theorem pySorted_sorted (xs : List String) :
    (pySorted xs).Sorted (fun a b => strLe a b = true) := by
  haveI : IsTotal String (fun a b => strLe a b = true) :=
    ⟨fun a b => lexLe_total a.toList b.toList⟩
  haveI : IsTrans String (fun a b => strLe a b = true) :=
    ⟨fun a b c => lexLe_trans a.toList b.toList c.toList⟩
  exact List.sorted_insertionSort _ xs

theorem pySorted_perm (xs : List String) : (pySorted xs).Perm xs :=
  List.perm_insertionSort _ xs

theorem kpi_ext (es₁ es₂ : List Entry) (d : PDate)
    (h0 : es₁ = [] ↔ es₂ = [])
    (hf : filterToday es₁ d = filterToday es₂ d) :
    calculate_kpi_intended es₁ d = calculate_kpi_intended es₂ d := by
  unfold calculate_kpi_intended
  by_cases h1 : es₁ = []
  · rw [if_pos h1, if_pos (h0.mp h1)]
  · rw [if_neg h1, if_neg (fun h => h1 (h0.mpr h))]
    have ha : activeHours es₁ d = activeHours es₂ d := by
      unfold activeHours; rw [hf]
    rw [hf, ha]

/-- C1 (code bug at line 111): on the single Metric entry of 2024-01-01
with duration 120, focus 80, rot 10 and output 4, the shipped
`calculate_kpi` raises AttributeError at line 111 instead of returning
anything; the intended KPI arithmetic of lines 112-122, at that same
reference date, yields rot = 10, efs = 81 and velocity = 2.0, with the
line-120 active-hours value equal to 2.0, exactly as the claim states. -/
theorem kpi_example_single_entry :
    calculate_kpi [⟨some ⟨2024, 1, 1⟩, "Metric", "", "", 120, 4, 10, 80, ""⟩] = Except.error normalizeAttrErr ∧
    calculate_kpi_intended [⟨some ⟨2024, 1, 1⟩, "Metric", "", "", 120, 4, 10, 80, ""⟩] ⟨2024, 1, 1⟩ = (10, 81, 2) ∧
    activeHours [⟨some ⟨2024, 1, 1⟩, "Metric", "", "", 120, 4, 10, 80, ""⟩] ⟨2024, 1, 1⟩ = 2 := by
  refine ⟨rfl, ?_, ?_⟩
  · simp [calculate_kpi_intended, filterToday, activeHours, pyInt, pyRound2, rEven]
    norm_num
  · simp [activeHours, filterToday]
    norm_num

/-- C2 (code bug at line 111): for every entry list whose Metric filter
on the reference date is non-empty, the shipped `calculate_kpi` raises
AttributeError before line 119 can compute any efs; the efs of the
intended arithmetic is the sum over the filtered set of duration times
focus over 100 minus 1.5 times rot, truncated toward zero (floor for
non-negative sums, ceiling for negative ones, never clamped); on the
single entry with duration 10, focus 0 and rot 20 this gives -30. -/
theorem efs_sum_truncated (entries : List Entry) (d : PDate)
    (hne : filterToday entries d ≠ []) :
    calculate_kpi entries = Except.error normalizeAttrErr ∧
    (calculate_kpi_intended entries d).2.1 =
      (if 0 ≤ ((filterToday entries d).map (fun e => e.duration * (e.focus / 100) - e.rot * 1.5)).sum
       then ⌊((filterToday entries d).map (fun e => e.duration * (e.focus / 100) - e.rot * 1.5)).sum⌋
       else ⌈((filterToday entries d).map (fun e => e.duration * (e.focus / 100) - e.rot * 1.5)).sum⌉) ∧
    (calculate_kpi_intended [⟨some ⟨2024, 1, 2⟩, "Metric", "", "", 10, 0, 20, 0, ""⟩] ⟨2024, 1, 2⟩).2.1 = -30 := by
  have hne' : entries ≠ [] := by
    intro h
    exact hne (by simp [h, filterToday])
  refine ⟨by simp [calculate_kpi, hne'], ?_, ?_⟩
  · simp only [calculate_kpi_intended]
    rw [if_neg hne', if_neg hne]
    simp [pyInt]
  · simp [calculate_kpi_intended, filterToday, pyInt]
    norm_num
    rw [show ((-30 : Rat)) = (((-30 : Int) : Rat)) by norm_num, Int.ceil_intCast]

theorem efs_sum_truncated_witness :
    calculate_kpi [⟨some ⟨2024, 1, 1⟩, "Metric", "", "", 120, 4, 10, 80, ""⟩] = Except.error normalizeAttrErr ∧
    (calculate_kpi_intended [⟨some ⟨2024, 1, 1⟩, "Metric", "", "", 120, 4, 10, 80, ""⟩] ⟨2024, 1, 1⟩).2.1 =
      (if 0 ≤ ((filterToday [⟨some ⟨2024, 1, 1⟩, "Metric", "", "", 120, 4, 10, 80, ""⟩] ⟨2024, 1, 1⟩).map (fun e => e.duration * (e.focus / 100) - e.rot * 1.5)).sum
       then ⌊((filterToday [⟨some ⟨2024, 1, 1⟩, "Metric", "", "", 120, 4, 10, 80, ""⟩] ⟨2024, 1, 1⟩).map (fun e => e.duration * (e.focus / 100) - e.rot * 1.5)).sum⌋
       else ⌈((filterToday [⟨some ⟨2024, 1, 1⟩, "Metric", "", "", 120, 4, 10, 80, ""⟩] ⟨2024, 1, 1⟩).map (fun e => e.duration * (e.focus / 100) - e.rot * 1.5)).sum⌉) ∧
    (calculate_kpi_intended [⟨some ⟨2024, 1, 2⟩, "Metric", "", "", 10, 0, 20, 0, ""⟩] ⟨2024, 1, 2⟩).2.1 = -30 :=
  efs_sum_truncated _ _ (by decide)

theorem kpi_velocity (entries : List Entry) (d : PDate) :
    (calculate_kpi_intended entries d).2.2 =
      if 0 < activeHours entries d
      then pyRound2 (((filterToday entries d).map (fun e => e.output)).sum / activeHours entries d)
      else 0 := by
  by_cases h1 : entries = []
  · subst h1
    simp [calculate_kpi_intended, activeHours, filterToday]
  · by_cases h2 : filterToday entries d = []
    · have : activeHours entries d = 0 := by simp [activeHours, h2]
      simp only [calculate_kpi_intended]
      rw [if_neg h1, if_pos h2, this]
      simp
    · simp only [calculate_kpi_intended]
      rw [if_neg h1, if_neg h2]

/-- C3 (code bug at line 111): on a non-empty frame — e.g. one Metric
entry with duration 0 and output 5, where the claim asserts velocity 0 —
the shipped `calculate_kpi` raises AttributeError before the hours > 0
guard of line 121 is ever reached.  For the intended arithmetic of
lines 112-122 (all durations being non-negative): if the summed duration
of the matching Metric entries is zero then velocity is 0 whatever the
outputs are; otherwise velocity is the output sum divided by the active
hours, rounded to two decimal places, and the division is only performed
under the positivity guard. -/
theorem velocity_zero_guard (entries : List Entry) (d : PDate)
    (hpos : ∀ e ∈ entries, 0 ≤ e.duration) :
    calculate_kpi [⟨some ⟨2024, 1, 1⟩, "Metric", "", "", 0, 5, 0, 0, ""⟩] = Except.error normalizeAttrErr ∧
    (activeHours entries d = 0 → (calculate_kpi_intended entries d).2.2 = 0) ∧
    (activeHours entries d ≠ 0 →
      (calculate_kpi_intended entries d).2.2 =
        pyRound2 (((filterToday entries d).map (fun e => e.output)).sum / activeHours entries d)) := by
  refine ⟨rfl, ?_, ?_⟩
  · intro h0
    rw [kpi_velocity, h0]
    simp
  · intro hne
    have hnn : 0 ≤ activeHours entries d := by
      unfold activeHours
      apply div_nonneg _ (by norm_num)
      apply List.sum_nonneg
      intro x hx
      rcases List.mem_map.mp hx with ⟨e, he, rfl⟩
      exact hpos e (List.mem_filter.mp he).1
    rw [kpi_velocity, if_pos (lt_of_le_of_ne hnn (Ne.symm hne))]

theorem velocity_zero_guard_witness :
    (calculate_kpi [⟨some ⟨2024, 1, 1⟩, "Metric", "", "", 0, 5, 0, 0, ""⟩] = Except.error normalizeAttrErr ∧
     (activeHours [⟨some ⟨2024, 1, 1⟩, "Metric", "", "", 120, 4, 10, 80, ""⟩] ⟨2024, 1, 1⟩ = 0 →
      (calculate_kpi_intended [⟨some ⟨2024, 1, 1⟩, "Metric", "", "", 120, 4, 10, 80, ""⟩] ⟨2024, 1, 1⟩).2.2 = 0) ∧
     (activeHours [⟨some ⟨2024, 1, 1⟩, "Metric", "", "", 120, 4, 10, 80, ""⟩] ⟨2024, 1, 1⟩ ≠ 0 →
      (calculate_kpi_intended [⟨some ⟨2024, 1, 1⟩, "Metric", "", "", 120, 4, 10, 80, ""⟩] ⟨2024, 1, 1⟩).2.2 =
        pyRound2 (((filterToday [⟨some ⟨2024, 1, 1⟩, "Metric", "", "", 120, 4, 10, 80, ""⟩] ⟨2024, 1, 1⟩).map (fun e => e.output)).sum /
          activeHours [⟨some ⟨2024, 1, 1⟩, "Metric", "", "", 120, 4, 10, 80, ""⟩] ⟨2024, 1, 1⟩))) :=
  velocity_zero_guard _ _ (by
    intro e he
    simp at he
    subst he
    norm_num)

/-- C4: changing the numeric fields of Anomaly entries never changes the
result of the KPI computation: the shipped `calculate_kpi` depends only
on frame emptiness (line 111 raises AttributeError on every non-empty
frame before any field is read), which such a change preserves, and the
intended KPI arithmetic drops Anomaly entries at the line-114 Metric
filter before any of their numeric fields reaches a sum. -/
theorem anomaly_numeric_irrelevant :
    (∀ (es₁ es₂ : List Entry), List.Forall₂ AnomAgree es₁ es₂ →
        calculate_kpi es₁ = calculate_kpi es₂) ∧
    (∀ (es₁ es₂ : List Entry) (d : PDate), List.Forall₂ AnomAgree es₁ es₂ →
        calculate_kpi_intended es₁ d = calculate_kpi_intended es₂ d) := by
  constructor
  · intro es₁ es₂ h
    unfold calculate_kpi
    by_cases h1 : es₁ = []
    · rw [if_pos h1, if_pos (by subst h1; cases h; rfl)]
    · rw [if_neg h1, if_neg (fun h2 => h1 (by subst h2; cases h; rfl))]
  · intro es₁ es₂ d h
    apply kpi_ext
    · constructor
      · intro h1; subst h1; cases h; rfl
      · intro h2; subst h2; cases h; rfl
    · induction h with
      | nil => rfl
      | @cons a b l₁ l₂ hR ht ih =>
        simp only [filterToday, List.filter_cons] at ih ⊢
        rcases hR with rfl | ⟨hk1, hk2, hd, hs, hact, hn⟩
        · cases hp : (decide (a.date = some d) && decide (a.kind = "Metric")) <;> simp [hp, ih]
        · simp +decide [hk1, hk2, ih]

theorem anomaly_numeric_irrelevant_witness :
    calculate_kpi [⟨some ⟨2024, 1, 1⟩, "Anomaly", "Life", "Class", 0, 0, 0, 0, "n"⟩] =
      calculate_kpi [⟨some ⟨2024, 1, 1⟩, "Anomaly", "Life", "Class", 99, 7, 45, 50, "n"⟩] ∧
    calculate_kpi_intended [⟨some ⟨2024, 1, 1⟩, "Anomaly", "Life", "Class", 0, 0, 0, 0, "n"⟩] ⟨2024, 1, 1⟩ =
      calculate_kpi_intended [⟨some ⟨2024, 1, 1⟩, "Anomaly", "Life", "Class", 99, 7, 45, 50, "n"⟩] ⟨2024, 1, 1⟩ :=
  ⟨anomaly_numeric_irrelevant.1 _ _
      (List.Forall₂.cons (Or.inr ⟨rfl, rfl, rfl, rfl, rfl, rfl⟩) List.Forall₂.nil),
   anomaly_numeric_irrelevant.2 _ _ ⟨2024, 1, 1⟩
      (List.Forall₂.cons (Or.inr ⟨rfl, rfl, rfl, rfl, rfl, rfl⟩) List.Forall₂.nil)⟩

/-- C5 counterexample: a row whose Type cell is empty (the
`get_all_records` value of a missing field) keeps kind "" after
normalization — the Record Normalizer does not assign it "Metric". -/
theorem counterexample_kind_not_defaulted :
    (normalizeRow ⟨"2024-01-01", "", "", "", "", "", .num 120, .num 4, .num 10, .num 80, ""⟩).kind = "" ∧
    (normalizeRow ⟨"2024-01-01", "", "", "", "", "", .num 120, .num 4, .num 10, .num 80, ""⟩).kind ≠ "Metric" :=
  ⟨rfl, by decide⟩

/-- C5 (amended): the normalizer passes the Type column through
unchanged — missing or unknown values are never defaulted to "Metric".
Inclusion in the Metric-filtered aggregation is moot in the shipped
code, where `calculate_kpi` raises AttributeError at line 111 on every
non-empty frame before the line-114 filter can run; in the intended KPI
arithmetic a row whose Type is anything other than "Metric" is excluded
by that filter, contributing nothing. -/
theorem kind_passthrough_excluded (r : RawRow) (es : List Entry) (d : PDate)
    (h : r.type ≠ "Metric") :
    (normalizeRow r).kind = r.type ∧
    calculate_kpi (normalizeRow r :: es) = Except.error normalizeAttrErr ∧
    calculate_kpi_intended (normalizeRow r :: es) d = calculate_kpi_intended es d := by
  have hp : ∀ es0, filterToday (normalizeRow r :: es0) d = filterToday es0 d := by
    intro es0
    simp only [filterToday, List.filter_cons]
    rw [show (decide ((normalizeRow r).kind = "Metric")) = false from decide_eq_false h]
    simp
  refine ⟨rfl, rfl, ?_⟩
  by_cases hes : es = []
  · subst hes
    have h2 : filterToday [normalizeRow r] d = [] := hp []
    simp [calculate_kpi_intended, h2]
  · apply kpi_ext
    · simp [hes]
    · exact hp _

theorem kind_passthrough_excluded_witness :
    (normalizeRow ⟨"2024-01-01", "", "Anomaly", "", "", "", .num 77, .num 7, .num 7, .num 7, ""⟩).kind = "Anomaly" ∧
    calculate_kpi (normalizeRow ⟨"2024-01-01", "", "Anomaly", "", "", "", .num 77, .num 7, .num 7, .num 7, ""⟩ ::
        [⟨some ⟨2024, 1, 1⟩, "Metric", "", "", 60, 2, 5, 90, ""⟩]) = Except.error normalizeAttrErr ∧
    calculate_kpi_intended (normalizeRow ⟨"2024-01-01", "", "Anomaly", "", "", "", .num 77, .num 7, .num 7, .num 7, ""⟩ ::
        [⟨some ⟨2024, 1, 1⟩, "Metric", "", "", 60, 2, 5, 90, ""⟩]) ⟨2024, 1, 1⟩ =
      calculate_kpi_intended [⟨some ⟨2024, 1, 1⟩, "Metric", "", "", 60, 2, 5, 90, ""⟩] ⟨2024, 1, 1⟩ :=
  kind_passthrough_excluded _ _ _ (by decide)

/-- C6 counterexample: a non-empty Logs frame whose header provides only
the Duration column — one row with just a Duration value 5 — makes the
normalization of lines 96-98 raise a KeyError on the absent Date column
rather than default it; the Record Normalizer can raise for input whose
columns are missing. -/
theorem counterexample_missing_column :
    get_data ⟨false, true, false, false, false, [⟨"", "", "Metric", "", "", "", .num 5, .str "", .str "", .str "", ""⟩]⟩
        = Except.error "KeyError: Date" ∧
    get_data ⟨false, true, false, false, false, [⟨"", "", "Metric", "", "", "", .num 5, .str "", .str "", .str "", ""⟩]⟩
        ≠ Except.ok (List.map normalizeRow [⟨"", "", "Metric", "", "", "", .num 5, .str "", .str "", .str "", ""⟩]) :=
  ⟨rfl, by simp [get_data]⟩

/-- C6 (amended): per-cell missingness or malformedness never raises —
whenever the five columns touched by lines 96-98 are all present,
`get_data` returns exactly one normalized entry per row, an unparsable
date cell becomes `none` (NaT) and such an entry is dropped by every
date-equality filter, and every numeric cell that fails to parse becomes
0.  When one of those columns is entirely absent from a non-empty Logs
frame, however, `get_data` raises a KeyError (lines 96-98; see the
counterexample). -/
theorem normalizer_defaults (sheet : LogsSheet) (r : RawRow) (d : PDate)
    (hall : sheet.hasDate = true ∧ sheet.hasDuration = true ∧ sheet.hasOutput = true ∧
      sheet.hasRot = true ∧ sheet.hasFocus = true)
    (hd : pdToDatetime r.date = none)
    (h1 : pdToNumeric r.duration = none) (h2 : pdToNumeric r.output = none)
    (h3 : pdToNumeric r.rot = none) (h4 : pdToNumeric r.focus = none) :
    get_data sheet = Except.ok (sheet.rows.map normalizeRow) ∧
    (normalizeRow r).date = none ∧
    (∀ es, filterToday (normalizeRow r :: es) d = filterToday es d) ∧
    (normalizeRow r).duration = 0 ∧ (normalizeRow r).output = 0 ∧
    (normalizeRow r).rot = 0 ∧ (normalizeRow r).focus = 0 := by
  obtain ⟨ha, hb, hc, hr, hf⟩ := hall
  have hok : get_data sheet = Except.ok (sheet.rows.map normalizeRow) := by
    unfold get_data
    by_cases h0 : sheet.rows = []
    · rw [if_pos h0, h0]
      rfl
    · rw [if_neg h0]
      simp [ha, hb, hc, hr, hf]
  have hdate : (normalizeRow r).date = none := by simp [normalizeRow, hd]
  refine ⟨hok, hdate, ?_, by simp [normalizeRow, h1],
    by simp [normalizeRow, h2], by simp [normalizeRow, h3], by simp [normalizeRow, h4]⟩
  intro es
  simp only [filterToday, List.filter_cons]
  rw [show (decide ((normalizeRow r).date = some d)) = false from decide_eq_false (by simp [hdate])]
  simp

theorem normalizer_defaults_witness :
    get_data ⟨true, true, true, true, true, [⟨"not a date", "", "Metric", "", "", "", .str "x", .str "", .str "12a", .str "-", ""⟩]⟩ =
      Except.ok (List.map normalizeRow [⟨"not a date", "", "Metric", "", "", "", .str "x", .str "", .str "12a", .str "-", ""⟩]) ∧
    (normalizeRow ⟨"not a date", "", "Metric", "", "", "", .str "x", .str "", .str "12a", .str "-", ""⟩).date = none ∧
    filterToday [normalizeRow ⟨"not a date", "", "Metric", "", "", "", .str "x", .str "", .str "12a", .str "-", ""⟩] ⟨2024, 1, 1⟩ = filterToday [] ⟨2024, 1, 1⟩ ∧
    (normalizeRow ⟨"not a date", "", "Metric", "", "", "", .str "x", .str "", .str "12a", .str "-", ""⟩).duration = 0 ∧
    (normalizeRow ⟨"not a date", "", "Metric", "", "", "", .str "x", .str "", .str "12a", .str "-", ""⟩).output = 0 ∧
    (normalizeRow ⟨"not a date", "", "Metric", "", "", "", .str "x", .str "", .str "12a", .str "-", ""⟩).rot = 0 ∧
    (normalizeRow ⟨"not a date", "", "Metric", "", "", "", .str "x", .str "", .str "12a", .str "-", ""⟩).focus = 0 := by
  have h := normalizer_defaults
    ⟨true, true, true, true, true, [⟨"not a date", "", "Metric", "", "", "", .str "x", .str "", .str "12a", .str "-", ""⟩]⟩
    ⟨"not a date", "", "Metric", "", "", "", .str "x", .str "", .str "12a", .str "-", ""⟩
    ⟨2024, 1, 1⟩ ⟨rfl, rfl, rfl, rfl, rfl⟩ (by decide) (by decide) (by decide) (by decide) (by decide)
  exact ⟨h.1, h.2.1, h.2.2.1 [], h.2.2.2⟩

/-- C7: the weekday-to-protocol mapping over all seven weekday indices:
Monday, Wednesday, Friday give "MWS Protocol", Tuesday, Thursday,
Saturday give "TTS Protocol", Sunday gives "Sunday Special". -/
theorem protocol_weekday_mapping :
    get_day_protocol 0 = "MWS Protocol" ∧ get_day_protocol 1 = "TTS Protocol" ∧
    get_day_protocol 2 = "MWS Protocol" ∧ get_day_protocol 3 = "TTS Protocol" ∧
    get_day_protocol 4 = "MWS Protocol" ∧ get_day_protocol 5 = "TTS Protocol" ∧
    get_day_protocol 6 = "Sunday Special" := by decide

/-- C8: the schedule filter keeps exactly the slots whose Day_Type
contains, case-insensitively, the first whitespace token of the protocol
label; with no match it returns the empty list rather than raising; a
slot with dayType "mws-morning" matches "MWS Protocol". -/
theorem match_today_slots_charact :
    (∀ (rows : List TRow) (protocol : String) (s : TRow),
        s ∈ matchTodaySlots rows protocol ↔
          s ∈ rows ∧ strContainsCI s.dayType (firstToken protocol) = true) ∧
    (∀ (rows : List TRow) (protocol : String),
        (∀ s ∈ rows, strContainsCI s.dayType (firstToken protocol) = false) →
          matchTodaySlots rows protocol = []) ∧
    strContainsCI "mws-morning" (firstToken "MWS Protocol") = true := by
  refine ⟨?_, ?_, by decide⟩
  · intro rows protocol s
    simp [matchTodaySlots, List.mem_filter]
  · intro rows protocol h
    simp only [matchTodaySlots, List.filter_eq_nil_iff]
    intro a ha
    simp [h a ha]

theorem match_today_slots_charact_witness :
    (⟨"mws-morning", "t", "x"⟩ ∈ matchTodaySlots [⟨"mws-morning", "t", "x"⟩] "MWS Protocol" ↔
      (⟨"mws-morning", "t", "x"⟩ : TRow) ∈ [(⟨"mws-morning", "t", "x"⟩ : TRow)] ∧
        strContainsCI "mws-morning" (firstToken "MWS Protocol") = true) ∧
    matchTodaySlots [⟨"OFF", "t", "x"⟩] "MWS Protocol" = [] :=
  ⟨match_today_slots_charact.1 _ _ _, match_today_slots_charact.2.1 _ _ (by decide)⟩

/-- C9 counterexample: on a non-empty timetable whose Day_Type column is
absent, the schedule tab raises a KeyError instead of returning the full
unfiltered timetable. -/
theorem counterexample_day_type_absent :
    scheduleView ⟨false, [⟨"MWS", "06:00 - 08:00", "Physics"⟩]⟩ "MWS Protocol"
        = Except.error "KeyError: Day_Type" ∧
    scheduleView ⟨false, [⟨"MWS", "06:00 - 08:00", "Physics"⟩]⟩ "MWS Protocol"
        ≠ Except.ok [⟨"MWS", "06:00 - 08:00", "Physics"⟩] := by
  constructor
  · rfl
  · simp [scheduleView]

/-- C9 (amended): with the Day_Type column entirely absent the schedule
tab raises a KeyError (it does not degrade to the unfiltered timetable);
the unfiltered-fallback behaviour belongs to the no-slot-matches case,
where the full timetable is displayed. -/
theorem schedule_fallback_amended (rows : List TRow) (protocol : String)
    (hne : rows ≠ []) :
    scheduleView ⟨false, rows⟩ protocol = Except.error "KeyError: Day_Type" ∧
    ((∀ s ∈ rows, strContainsCI s.dayType (firstToken protocol) = false) →
      scheduleView ⟨true, rows⟩ protocol = Except.ok rows) := by
  constructor
  · simp [scheduleView, hne]
  · intro h
    have hm : matchTodaySlots rows protocol = [] := by
      simp only [matchTodaySlots, List.filter_eq_nil_iff]
      intro a ha
      simp [h a ha]
    simp [scheduleView, hne, hm]

theorem schedule_fallback_amended_witness :
    scheduleView ⟨false, [⟨"OFF", "t", "x"⟩]⟩ "MWS Protocol" = Except.error "KeyError: Day_Type" ∧
    ((∀ s ∈ [(⟨"OFF", "t", "x"⟩ : TRow)], strContainsCI s.dayType (firstToken "MWS Protocol") = false) →
      scheduleView ⟨true, [⟨"OFF", "t", "x"⟩]⟩ "MWS Protocol" = Except.ok [⟨"OFF", "t", "x"⟩]) :=
  schedule_fallback_amended _ _ (by decide)

/-- C10 counterexample: a Config sheet with a Category column but no
Item column makes `get_subjects` raise a KeyError, so no sorted list
containing the eight defaults is returned for that store content. -/
theorem counterexample_item_column_missing :
    get_subjects ⟨true, false, [⟨"Subject", "History"⟩]⟩ = Except.error "KeyError: Item" ∧
    get_subjects ⟨true, false, [⟨"Subject", "History"⟩]⟩ ≠
      Except.ok (pySortedSet (defaultSubjects ++ ["History"])) := by
  constructor
  · rfl
  · simp +decide [get_subjects]

/-- C10 (amended): every subject list that `get_subjects` actually
returns (every store content on which it does not raise, in particular
every sheet the app itself creates) is sorted, duplicate-free and
contains the eight defaults; and the Add Subject handler never appends a
name already present in the current list. -/
theorem subjects_invariant (cfg : ConfigSheet) (l : List String)
    (hok : get_subjects cfg = Except.ok l) :
    (l.Sorted (fun a b => strLe a b = true) ∧ l.Nodup ∧
      ∀ s ∈ defaultSubjects, s ∈ l) ∧
    (∀ (input : String) (subject_list : List String),
        input ∈ subject_list → addSubjectAction input subject_list = none) := by
  constructor
  · unfold get_subjects at hok
    by_cases hc : cfg.rows ≠ [] ∧ cfg.hasCategory = true
    · rw [if_pos hc] at hok
      by_cases hi : cfg.hasItem = false
      · rw [if_pos hi] at hok
        exact absurd hok (by simp)
      · rw [if_neg hi] at hok
        simp only [Except.ok.injEq] at hok
        subst hok
        simp only [pySortedSet]
        refine ⟨pySorted_sorted _, ?_, ?_⟩
        · exact (pySorted_perm _).symm.nodup (List.nodup_dedup _)
        · intro s hs
          rw [(pySorted_perm _).mem_iff, List.mem_dedup, List.mem_append]
          exact Or.inl hs
    · rw [if_neg hc] at hok
      simp only [Except.ok.injEq] at hok
      subst hok
      refine ⟨pySorted_sorted _, ?_, ?_⟩
      · exact (pySorted_perm _).symm.nodup (by decide)
      · intro s hs
        rw [(pySorted_perm _).mem_iff]
        exact hs
  · intro input subject_list h
    simp [addSubjectAction, h]

theorem subjects_invariant_witness :
    ((pySorted defaultSubjects).Sorted (fun a b => strLe a b = true) ∧
      (pySorted defaultSubjects).Nodup ∧
      ∀ s ∈ defaultSubjects, s ∈ pySorted defaultSubjects) ∧
    (∀ (input : String) (subject_list : List String),
        input ∈ subject_list → addSubjectAction input subject_list = none) :=
  subjects_invariant ⟨false, false, []⟩ (pySorted defaultSubjects) rfl
